import Mathlib

/-!
Verification development for the ABI_Firestore repository (src/gapp.py and
src/gtools.py): a role-gated conversational assistant with a JSON credential
store, a Firestore-backed data layer, an LLM tool-calling loop with bounded
retry, and two persona tools.

Shallow embedding conventions used throughout:
  * Python strings are Lean `String`s; substring tests (`"x" in s`) are the
    executable `strContains`; `str.lower()` / `str.upper()` / `str.strip()`
    are `lowerStr` / `pyUpper` / `pyStrip` (ASCII case mapping, whitespace
    trimming, matching the ASCII data these functions receive).
  * Dates and timestamps are day counts (`Nat`, days since 1970-01-01);
    pandas `NaT` / missing values are `Option.none`.
  * Python floats are exact rationals `ℚ` (no claim here depends on binary
    floating-point rounding).
  * The Python dict `CREDENTIALS` is an association list with `List.lookup`.
  * Fallible operations return `Except` / explicit result inductives; the
    Streamlit UI layer (st.error, st.rerun, ...) is out of scope per the
    spec and is represented by the distinct result constructors.
-/

namespace ABI

/-! ## String helpers (Python `in`, `.lower()`, `.upper()`, `.strip()`) -/

/-- Does the pattern match at the head of the character list? -/
def prefixMatch : List Char → List Char → Bool
  | [], _ => true
  | _ :: _, [] => false
  | p :: ps, c :: cs => p == c && prefixMatch ps cs

/-- Does the pattern occur as a contiguous run anywhere in the list? -/
def hasSub (pat : List Char) : List Char → Bool
  | [] => prefixMatch pat []
  | c :: rest => prefixMatch pat (c :: rest) || hasSub pat rest

/-- Python `pat in s` (substring containment). -/
def strContains (s pat : String) : Bool :=
  hasSub pat.data s.data

/-- Python `s.lower()` (ASCII case mapping, which covers the code's inputs). -/
def lowerStr (s : String) : String :=
  String.mk (s.data.map Char.toLower)

/-- Python `s.upper()` (ASCII case mapping). -/
def pyUpper (s : String) : String :=
  String.mk (s.data.map Char.toUpper)

/-- Python `s.strip()`: remove leading and trailing whitespace. -/
def pyStrip (s : String) : String :=
  String.mk (((s.data.dropWhile Char.isWhitespace).reverse.dropWhile Char.isWhitespace).reverse)

/-- The id normalization `str(x).strip().upper()` applied to customer ids
throughout gtools.py and gapp.py. -/
def normalizeId (s : String) : String :=
  pyUpper (pyStrip s)

/-! ## Credential store and authentication (gapp.py lines 592-646)

`credentials.json` maps username to a record with password, role, and (for
customer accounts) customer_id.  `load_credentials`/`save_credentials` are
the JSON file round trip; the store itself is the association list. -/

/-- One record of `credentials.json`: password (plaintext), role, and the
optional customer_id carried only by customer accounts. -/
structure UserData where
  password : String
  role : String
  customer_id : Option String
deriving DecidableEq, Repr

/-- The credential store: username -> record, as read from credentials.json. -/
def Creds := List (String × UserData)

instance : DecidableEq Creds := by
  unfold Creds
  infer_instance

/-- Outcome of `authenticate_user` (gapp.py lines 592-612).  `success` carries
the value assigned to `st.session_state.customer_id`: the stored customer_id
for the customer role, and the untouched `none` (its logged-out value, gapp.py
lines 376-377) otherwise.  The three failure constructors correspond to the
three distinct `st.error` messages. -/
inductive AuthResult where
  | notFound
  | wrongPassword
  | wrongRole
  | success (customer_id : Option String)
deriving DecidableEq, Repr

/-- gapp.py lines 592-612: look the username up, then compare password, then
compare role; on full match enter the role's chat page with the stored
customer_id (customer role only). -/
def authenticate_user (creds : Creds) (username password expected_role : String) :
    AuthResult :=
  match List.lookup username creds with
  | none => AuthResult.notFound
  | some user_data =>
    if user_data.password = password then
      if user_data.role = expected_role then
        AuthResult.success
          (if expected_role = "customer" then user_data.customer_id else none)
      else
        AuthResult.wrongRole
    else
      AuthResult.wrongPassword

/-- Outcome of `create_new_user` (gapp.py lines 614-646).  Constructors map to
the four rejection messages and the success path; `created` carries the store
as rewritten to credentials.json. -/
inductive RegResult where
  | emptyFields
  | duplicate
  | shortPassword
  | missingCustomerId
  | created (newCreds : Creds)
deriving DecidableEq

/-- Is the registration outcome the success path? -/
def RegResult.isCreated : RegResult → Bool
  | RegResult.created _ => true
  | _ => false

/-- gapp.py lines 614-646: reject empty username/password, duplicate username,
password shorter than 6, and (customer role) missing/empty customer_id; else
store the record, with customer_id saved as `customer_id.strip().upper()`.
The fresh username is prepended; since the key is absent, lookup semantics
agree with the Python dict update. -/
def create_new_user (creds : Creds) (new_username new_password role : String)
    (customer_id : Option String) : RegResult :=
  if new_username = "" ∨ new_password = "" then
    RegResult.emptyFields
  else if (List.lookup new_username creds).isSome then
    RegResult.duplicate
  else if new_password.length < 6 then
    RegResult.shortPassword
  else if role = "customer" then
    match customer_id with
    | none => RegResult.missingCustomerId
    | some cid =>
      if cid = "" then
        RegResult.missingCustomerId
      else
        RegResult.created
          ((new_username, UserData.mk new_password role (some (normalizeId cid))) :: creds)
  else
    RegResult.created ((new_username, UserData.mk new_password role none) :: creds)

/-! ## LLM invocation with bounded retry (gapp.py lines 474-506)

`handle_chat_interaction` wraps `client.models.generate_content` in a loop of
at most `max_retries` attempts.  The underlying call is modeled as a function
from the attempt number to its outcome (the response object is the abstract
type `α`); `random.uniform(0, 1)` is modeled as a jitter function from the
attempt number to a rational.  The result is the list of sleep durations
performed (`time.sleep(wait_time)` calls) together with either the error
string returned to the UI or the successful response. -/

/-- Outcome of one `client.models.generate_content` attempt: a response, or an
exception whose `str(e)` is the given message. -/
inductive CallResult (α : Type) where
  | success (response : α)
  | failure (err : String)

/-- gapp.py line 475. -/
def max_retries : Nat := 3

/-- gapp.py line 476. -/
def base_delay : ℚ := 2

/-- gapp.py line 491: `any(code in error_str for code in ["429", "503",
"RESOURCE_EXHAUSTED", "UNAVAILABLE"])`. -/
def isTransientError (e : String) : Bool :=
  ["429", "503", "RESOURCE_EXHAUSTED", "UNAVAILABLE"].any (fun code => strContains e code)

/-- gapp.py line 501: `"quota" in error_str.lower()`. -/
def isQuotaError (e : String) : Bool :=
  strContains (lowerStr e) "quota"

/-- gapp.py line 498: the bounded-retries error string. -/
def overloadedError (e : String) : String :=
  "❌ Error: Service overloaded after " ++ toString max_retries ++
    " attempts. Please try again later.\n\nDetails: " ++ e

/-- gapp.py line 502: the quota-exhausted error string. -/
def quotaError (e : String) : String :=
  "❌ Error: API quota exceeded. Please check your Gemini API plan.\n\nDetails: " ++ e

/-- gapp.py line 506: the catch-all error string. -/
def generationError (e : String) : String :=
  "❌ Error generating response: " ++ e

/-- The body of `for attempt in range(max_retries)` (gapp.py lines 478-506).
`fuel` is the number of loop iterations remaining (`max_retries - attempt`);
the first component of the result lists the sleeps performed, in order. -/
def generate_with_retry {α : Type} (call : Nat → CallResult α) (jitter : Nat → ℚ) :
    Nat → Nat → List ℚ × Except String α
  | 0, _ => ([], Except.error "")
  | _fuel + 1, attempt =>
    match call attempt with
    | CallResult.success r => ([], Except.ok r)
    | CallResult.failure e =>
      if isTransientError e then
        if attempt < max_retries - 1 then
          let wait_time := base_delay * 2 ^ attempt + jitter attempt
          let rest := generate_with_retry call jitter _fuel (attempt + 1)
          (wait_time :: rest.1, rest.2)
        else
          ([], Except.error (overloadedError e))
      else if isQuotaError e then
        ([], Except.error (quotaError e))
      else
        ([], Except.error (generationError e))

/-- The retry wrapper as entered by `handle_chat_interaction`: attempts start
at 0 with `max_retries` iterations available. -/
def invoke_model_with_retry {α : Type} (call : Nat → CallResult α) (jitter : Nat → ℚ) :
    List ℚ × Except String α :=
  generate_with_retry call jitter max_retries 0

/-! ## Tool-call dispatch and trace (gapp.py lines 509-564)

After a successful model response, `handle_chat_interaction` walks
`response.candidates[0].content.parts` (captured once at loop entry; the
reassignment of `response` inside the loop does not change the iterated
list).  For each part holding a function call it appends a `Tool Call` step;
if the name is registered in `function_map` it executes the tool inside a
try block that also contains the follow-up `generate_content` call, so a
raising tool yields one `Error executing <tool>: <message>` output step,
while a tool that succeeds but whose follow-up model call raises yields the
result output step and then an error output step.  A function call whose
name is NOT in `function_map` appends a `Tool Call` step and no output step
(line 533 has no else branch). -/

/-- A model-issued function call: name plus the supplied arguments. -/
structure FunctionCall where
  name : String
  args : List (String × String)
deriving DecidableEq, Repr

/-- One entry of `response.candidates[0].content.parts`. -/
inductive Part where
  | textPart (text : String)
  | funcCall (fc : FunctionCall)
deriving DecidableEq, Repr

/-- One entry of `current_tool_steps`. -/
inductive Step where
  | toolCall (name : String) (args : List (String × String))
  | toolOutput (output : String)
deriving DecidableEq, Repr

/-- A registered tool: either returns its result string or raises with the
given message. -/
abbrev ToolFn := List (String × String) → Except String String

/-- gapp.py line 560: the error text recorded when the try block raises. -/
def execError (func_name msg : String) : String :=
  "Error executing " ++ func_name ++ ": " ++ msg

/-- gapp.py lines 520-564: the `current_tool_steps` trace built by the
dispatch loop.  `followUp` is the outcome of the k-th follow-up
`generate_content` call (line 554), which only runs after a successful tool
execution and which can itself raise inside the same try block. -/
def dispatch_tool_calls (function_map : List (String × ToolFn))
    (followUp : Nat → Except String Unit) : List Part → Nat → List Step
  | [], _ => []
  | Part.textPart _ :: rest, k => dispatch_tool_calls function_map followUp rest k
  | Part.funcCall fc :: rest, k =>
    Step.toolCall fc.name fc.args ::
      (match List.lookup fc.name function_map with
       | none => dispatch_tool_calls function_map followUp rest k
       | some f =>
         match f fc.args with
         | Except.error msg =>
           Step.toolOutput (execError fc.name msg) ::
             dispatch_tool_calls function_map followUp rest k
         | Except.ok result =>
           match followUp k with
           | Except.ok _ =>
             Step.toolOutput result :: dispatch_tool_calls function_map followUp rest (k + 1)
           | Except.error msg =>
             Step.toolOutput result :: Step.toolOutput (execError fc.name msg) ::
               dispatch_tool_calls function_map followUp rest (k + 1))

/-- The call-then-output ordering property of a trace: every `Tool Call` step
is immediately followed by at least one `Tool Output` step (so each dispatched
call's output precedes any step of a subsequent call). -/
def every_call_has_output : List Step → Bool
  | [] => true
  | Step.toolCall _ _ :: Step.toolOutput _ :: rest => every_call_has_output rest
  | Step.toolOutput _ :: rest => every_call_has_output rest
  | Step.toolCall _ _ :: _ => false

/-- The per-call ordering property of a trace relative to a function map:
every `Tool Call` step whose name is registered — i.e. every dispatched call —
is immediately followed by at least one `Tool Output` step (so its output
precedes any step of a subsequent call); `Tool Call` steps with unregistered
names are exempt. -/
def registered_calls_have_output (function_map : List (String × ToolFn)) :
    List Step → Bool
  | [] => true
  | Step.toolOutput _ :: rest => registered_calls_have_output function_map rest
  | Step.toolCall name _ :: rest =>
    if (List.lookup name function_map).isSome then
      match rest with
      | Step.toolOutput _ :: _ => registered_calls_have_output function_map rest
      | _ => false
    else
      registered_calls_have_output function_map rest

/-! ## Domain record tables (gtools.py lines 59-215)

The four Firestore collections, after the column-name normalization and type
coercion of `load_data` have been applied, are typed rows.  The column-alias
renaming (lines 119-131) and `pd.to_numeric` / `to_datetime_clean` coercions
(lines 109-116, 166-206) are represented by the typed fields: numeric fields
are `Option ℚ` (`NaN` from a failed coercion is `none`), date fields are
`Option Nat` day counts (`NaT` is `none`), and id fields are strings.  The
only value-level transformation the claims depend on — trimming and
upper-casing customer ids (lines 144, 161) — is applied explicitly by
`clean_customers` / `clean_orders`. -/

/-- A row of the `customers` collection, canonical schema. -/
structure Customer where
  customer_id : String
  name : String
  email : String
  region : String
deriving DecidableEq, Repr

/-- A row of the `orders` collection, canonical schema. -/
structure Order where
  order_id : String
  customer_id : String
  product_id : String
  status : String
  order_date : Option Nat
  est_delivery : Option Nat
deriving DecidableEq, Repr

/-- A row of the `products` collection, canonical schema. -/
structure Product where
  product_id : String
  name : String
  category : String
  price : Option ℚ
  stock_level : Option ℚ
deriving DecidableEq, Repr

/-- A row of the `revenue` collection, canonical schema. -/
structure Revenue where
  revenue_id : String
  order_id : String
  amount : Option ℚ
  date : Option Nat
  payment_method : String
deriving DecidableEq, Repr

/-- Outcome of one Firestore collection read (gtools.py lines 61-82):
the client handle is `None`, the stream raised, or the documents fetched
(possibly zero of them). -/
inductive FetchResult (α : Type) where
  | unavailable
  | raised (msg : String)
  | docs (rows : List α)
deriving DecidableEq, Repr

/-- A fetch "succeeds" exactly when documents were returned and the
collection was non-empty (every other case yields an ERROR status below). -/
def fetch_ok {α : Type} : FetchResult α → Bool
  | FetchResult.docs (_ :: _) => true
  | _ => false

/-- gtools.py lines 61-82: `get_firestore_collection` returns the dataframe
together with a status string, which starts with "ERROR" on the unavailable /
raised / empty cases and is "SUCCESS" otherwise. -/
def get_firestore_collection {α : Type} (collection_name initStatus : String)
    (fr : FetchResult α) : List α × String :=
  match fr with
  | FetchResult.unavailable =>
    ([], "ERROR: Firebase not initialized. Status: " ++ initStatus)
  | FetchResult.raised msg =>
    ([], "ERROR: Failed to retrieve collection \x27" ++ collection_name ++
      "\x27. Details: " ++ msg)
  | FetchResult.docs rows =>
    if rows.isEmpty then
      ([], "ERROR: Collection \x27" ++ collection_name ++ "\x27 is empty or does not exist.")
    else
      (rows, "SUCCESS")

/-- The loaded table set returned by a successful `load_data`. -/
structure Tables where
  customers_df : List Customer
  orders_df : List Order
  products_df : List Product
  revenue_df : List Revenue
deriving DecidableEq, Repr

/-- A snapshot of the external document store as seen by one `load_data`
call: the four collection fetch outcomes plus the module-level
`FIREBASE_INIT_STATUS` string. -/
structure Firestore where
  customers : FetchResult Customer
  orders : FetchResult Order
  products : FetchResult Product
  revenue : FetchResult Revenue
  initStatus : String

/-- Status of the customers fetch inside `load_data` (gtools.py line 90). -/
def customers_status (fs : Firestore) : String :=
  (get_firestore_collection "customers" fs.initStatus fs.customers).2

/-- Status of the orders fetch inside `load_data` (gtools.py line 91). -/
def orders_status (fs : Firestore) : String :=
  (get_firestore_collection "orders" fs.initStatus fs.orders).2

/-- Status of the products fetch inside `load_data` (gtools.py line 92). -/
def products_status (fs : Firestore) : String :=
  (get_firestore_collection "products" fs.initStatus fs.products).2

/-- Status of the revenue fetch inside `load_data` (gtools.py line 93). -/
def revenue_status (fs : Firestore) : String :=
  (get_firestore_collection "revenue" fs.initStatus fs.revenue).2

/-- gtools.py lines 96-104: the `errors` list naming each table whose fetch
status contains "ERROR". -/
def table_fetch_errors (cs os ps rs : String) : List String :=
  (if strContains cs "ERROR" then ["Customers: " ++ cs] else []) ++
  (if strContains os "ERROR" then ["Orders: " ++ os] else []) ++
  (if strContains ps "ERROR" then ["Products: " ++ ps] else []) ++
  (if strContains rs "ERROR" then ["Revenue: " ++ rs] else [])

/-- The `errors` list of one `load_data` call. -/
def load_errors (fs : Firestore) : List String :=
  table_fetch_errors (customers_status fs) (orders_status fs)
    (products_status fs) (revenue_status fs)

/-- gtools.py line 107: the single aggregated load-failure string. -/
def aggregated_load_error (fs : Firestore) : String :=
  "Data Load Error: " ++ String.intercalate "; " (load_errors fs)

/-- gtools.py line 144: `customers_df['customer_id'].astype(str).str.strip().str.upper()`. -/
def clean_customers (cs : List Customer) : List Customer :=
  cs.map (fun c => { c with customer_id := normalizeId c.customer_id })

/-- gtools.py line 161: the same normalization for `orders_df['customer_id']`. -/
def clean_orders (os : List Order) : List Order :=
  os.map (fun o => { o with customer_id := normalizeId o.customer_id })

/-- gtools.py lines 85-215: fetch all four tables; if any status carries an
ERROR, return the single aggregated error string and no table data at all;
otherwise return the cleaned, typed tables. -/
def load_data (fs : Firestore) : Except String Tables :=
  if load_errors fs = [] then
    Except.ok
      { customers_df := clean_customers (get_firestore_collection "customers" fs.initStatus fs.customers).1,
        orders_df := clean_orders (get_firestore_collection "orders" fs.initStatus fs.orders).1,
        products_df := (get_firestore_collection "products" fs.initStatus fs.products).1,
        revenue_df := (get_firestore_collection "revenue" fs.initStatus fs.revenue).1 }
  else
    Except.error (aggregated_load_error fs)

/-! ## Delay check (gtools.py lines 382-389 and 513-520)

Both `check_customer_order_status` and `check_for_critical_delays` filter
orders with the same four-condition pandas expression:
`(est_delivery < today) & (status != 'Delivered') & (status != 'Cancelled')
& pd.notna(est_delivery)`.  A `NaT` est_delivery compares false against
`today`, so the null check is redundant but kept, as in the source. -/

/-- One order's delay predicate at the given as-of day. -/
def order_is_delayed (today : Nat) (o : Order) : Bool :=
  (match o.est_delivery with
   | some d => decide (d < today)
   | none => false)
  && !(o.status == "Delivered")
  && !(o.status == "Cancelled")
  && o.est_delivery.isSome

/-- The filtered set of delayed orders. -/
def critically_delayed_orders (orders : List Order) (today : Nat) : List Order :=
  orders.filter (order_is_delayed today)

/-- Left join of orders with customers on customer_id, `how='left'`
(gtools.py lines 525-527): an order with no matching customer keeps one row
with null customer fields; duplicate matches multiply rows. -/
def left_join_customers (orders : List Order) (customers : List Customer) :
    List (Order × Option Customer) :=
  (orders.map (fun o =>
    match customers.filter (fun c => c.customer_id == o.customer_id) with
    | [] => [(o, (none : Option Customer))]
    | cs => cs.map (fun c => (o, some c)))).flatten

/-- gtools.py lines 500-534: `check_for_critical_delays`.  The
`'est_delivery' not in orders_df.columns` branch (line 510) is
unrepresentable in the typed schema, where the column always exists. -/
def check_for_critical_delays (fs : Firestore) (today : Nat) : String :=
  match load_data fs with
  | Except.error e => e
  | Except.ok t =>
    let delayed := critically_delayed_orders t.orders_df today
    if delayed.isEmpty then
      "SUCCESS: No critical delivery delays found."
    else
      let withCust := left_join_customers delayed t.customers_df
      let order_list := (delayed.map (fun o => o.order_id)).take 3
      let customer_names :=
        (withCust.map (fun oc =>
          match oc.2 with | some c => c.name | none => "nan")).take 3
      "ALERT: " ++ toString delayed.length ++
        " orders are critically delayed!\nAffected Orders: " ++
        String.intercalate ", " order_list ++ "\nAffected Customers: " ++
        String.intercalate ", " customer_names

/-- The dict returned by `check_customer_order_status`
(gtools.py lines 350-418). -/
structure StatusResult where
  status : String
  message : String
  count : Option Nat
deriving DecidableEq, Repr

/-- gtools.py lines 350-418: delayed-order notification check for one
customer.  The same delay filter as `check_for_critical_delays` is applied
to the customer's own orders; the `'est_delivery' not in columns` and
`'customer_id' not in columns` branches are unrepresentable in the typed
schema.  Exceptions are caught and mapped to the error status (line 418). -/
def check_customer_order_status (fs : Firestore) (today : Nat)
    (customer_id : String) : StatusResult :=
  match load_data fs with
  | Except.error _ => StatusResult.mk "error" "Unable to load data" none
  | Except.ok t =>
    if t.orders_df.isEmpty then
      StatusResult.mk "normal" "You have no active orders" none
    else
      let clean_id := normalizeId customer_id
      let customer_orders := t.orders_df.filter (fun o => o.customer_id == clean_id)
      if customer_orders.isEmpty then
        StatusResult.mk "normal" "You have no active orders" none
      else
        let delayed := critically_delayed_orders customer_orders today
        if !delayed.isEmpty then
          StatusResult.mk "delayed"
            ("⚠️ You have " ++ toString delayed.length ++ " delayed order" ++
              (if delayed.length > 1 then "s" else "") ++ "!")
            (some delayed.length)
        else
          let on_time := (customer_orders.filter
            (fun o => o.status == "Pending" || o.status == "Shipped")).length
          let delivered := (customer_orders.filter
            (fun o => o.status == "Delivered")).length
          if on_time > 0 then
            StatusResult.mk "normal"
              ("✅ All " ++ toString on_time ++ " active order" ++
                (if on_time > 1 then "s are" else " is") ++ " on track!")
              (some on_time)
          else
            StatusResult.mk "normal"
              ("✅ You have " ++ toString delivered ++ " completed order" ++
                (if delivered > 1 then "s" else ""))
              (some delivered)

/-! ## Output formatting helpers (gtools.py lines 218-284)

Python's fixed-point formatting of floats (`:.2f`, `:,.2f`) is modeled on
exact rationals with round-half-up at two decimals (the binary-double
half-even corner cases are outside every claim); `:,` thousands grouping is
implemented directly; `strftime('%Y-%m-%d')` uses the standard
days-to-civil-date conversion on day counts. -/

/-- Insert a comma after every third character of a reversed digit list. -/
def groupThrees : Nat → List Char → List Char
  | _, [] => []
  | 0, ds => ds
  | fuel + 1, ds =>
    if ds.length ≤ 3 then ds
    else ds.take 3 ++ ',' :: groupThrees fuel (ds.drop 3)

/-- Python `f"\x7bn:,\x7d"` for a natural number. -/
def commaGroupNat (n : Nat) : String :=
  let ds := (toString n).data.reverse
  String.mk (groupThrees ds.length ds).reverse

/-- Python `f"\x7bn:,\x7d"` for an integer. -/
def commaGroupInt (n : Int) : String :=
  (if n < 0 then "-" else "") ++ commaGroupNat n.natAbs

/-- Two-decimal fixed-point rendering of a rational, optionally with
thousands grouping: Python `:.2f` / `:,.2f`. -/
def fmtFixed2 (grouped : Bool) (q : ℚ) : String :=
  let cents : Int := round (q * 100)
  let a := cents.natAbs
  (if cents < 0 then "-" else "") ++
    (if grouped then commaGroupNat (a / 100) else toString (a / 100)) ++
    "." ++ (if a % 100 < 10 then "0" else "") ++ toString (a % 100)

/-- Zero-pad a number below 100 to two digits. -/
def pad2 (n : Nat) : String :=
  if n < 10 then "0" ++ toString n else toString n

/-- Convert a day count since 1970-01-01 to (year, month, day)
(standard civil-from-days algorithm, valid for non-negative day counts). -/
def civilOfDays (z : Nat) : Nat × Nat × Nat :=
  let zs := z + 719468
  let era := zs / 146097
  let doe := zs % 146097
  let yoe := (doe - doe / 1460 + doe / 36524 - doe / 146096) / 365
  let y := yoe + era * 400
  let doy := doe - (365 * yoe + yoe / 4 - yoe / 100)
  let mp := (5 * doy + 2) / 153
  let d := doy - (153 * mp + 2) / 5 + 1
  let m := if mp < 10 then mp + 3 else mp - 9
  (if m ≤ 2 then y + 1 else y, m, d)

/-- Python `strftime('%Y-%m-%d')` on a day count. -/
def dateStr (z : Nat) : String :=
  toString (civilOfDays z).1 ++ "-" ++ pad2 (civilOfDays z).2.1 ++ "-" ++
    pad2 (civilOfDays z).2.2

/-- The 50-character separator of `get_customer_orders`. -/
def sep50 : String := String.mk (List.replicate 50 '─')

/-- The 70-character separator of the format helpers. -/
def sep70 : String := String.mk (List.replicate 70 '─')

/-- One dataframe cell: string, integer, float (exact rational), date, or a
missing value (`NaN`/`NaT`/`None`). -/
inductive Cell where
  | s (v : String)
  | i (v : Int)
  | f (v : ℚ)
  | date (v : Nat)
  | na
deriving DecidableEq, Repr

/-- A pandas DataFrame: column names plus rows carrying their index label
(the label printed by `iterrows`) and the cells aligned with the columns. -/
structure DataFrame where
  cols : List String
  rows : List (Nat × List Cell)
deriving DecidableEq, Repr

/-- Per-cell rendering of `format_dataframe_output` (gtools.py lines 236-244):
dates as `%Y-%m-%d`, floats as money (`$:,.2f`) for amount/price/revenue
columns and plain `:.2f` otherwise, missing values as `N/A`, anything else
via `str`. -/
def formatCellByCol (col : String) (c : Cell) : String :=
  match c with
  | Cell.date d => dateStr d
  | Cell.na => "N/A"
  | Cell.f v =>
    if strContains (lowerStr col) "amount" || strContains (lowerStr col) "price"
        || strContains (lowerStr col) "revenue" then
      "$" ++ fmtFixed2 true v
    else
      fmtFixed2 false v
  | Cell.i v => toString v
  | Cell.s v => v

/-- gtools.py lines 218-251: `format_dataframe_output` with `max_rows=10`
(the Series-to-frame branch is unreachable from the dispatch, which routes
Series to `format_series_output` first). -/
def format_dataframe_output (df : DataFrame) : String :=
  let max_rows := 10
  let total_rows := df.rows.length
  let display := df.rows.take max_rows
  "📊 Total Records: " ++ toString total_rows ++ "\n" ++
    (if total_rows > max_rows then
      "📋 Showing first " ++ toString max_rows ++ " rows\n" else "") ++
    sep70 ++ "\n\n" ++
    String.join (display.map (fun row =>
      "▸ Record " ++ toString (row.1 + 1) ++ ":\n" ++
        String.join ((df.cols.zip row.2).map (fun p =>
          "  • " ++ p.1 ++ ": " ++ formatCellByCol p.1 p.2 ++ "\n")) ++ "\n")) ++
    (if total_rows > max_rows then
      "⋯ and " ++ toString (total_rows - max_rows) ++ " more records\n" else "")

/-- Per-item rendering of `format_series_output` (gtools.py lines 259-265):
floats as money when the `name` argument mentions amount/revenue and as
`:,.2f` otherwise; everything else via `str`. -/
def formatSeriesValue (name : String) (c : Cell) : String :=
  match c with
  | Cell.f v =>
    if strContains (lowerStr name) "amount" || strContains (lowerStr name) "revenue" then
      "$" ++ fmtFixed2 true v
    else
      fmtFixed2 true v
  | Cell.s v => v
  | Cell.i v => toString v
  | Cell.date d => dateStr d
  | Cell.na => "nan"

/-- gtools.py lines 254-267: `format_series_output`.  A Series is the list of
(index label, value) items; `name` is the function's name parameter (the
dispatch always passes the default "Value"). -/
def format_series_output (series : List (String × Cell)) (name : String) : String :=
  "📊 Analysis Results (" ++ toString series.length ++ " items)\n" ++
    sep70 ++ "\n\n" ++
    String.join (series.map (fun p =>
      "▸ " ++ p.1 ++ ": " ++ formatSeriesValue name p.2 ++ "\n"))

/-! ## Business analytics tool (gtools.py lines 423-467)

`exec(python_code, \x7b\x7d, local_env)` runs model-supplied code against the
loaded tables.  The exec itself is the unembeddable boundary; its observable
outcome — raised with a message, or completed with/without binding the
designated `result` variable — is the `ExecOutcome` input.  The value bound
to `result` is a `PyValue`. -/

/-- The value the executed code bound to `result` (if any): `None`, a
DataFrame, a Series, an int, a float, a string, or any other object
represented by its `str()`. -/
inductive PyValue where
  | pyNone
  | pyDF (df : DataFrame)
  | pySeries (series : List (String × Cell))
  | pyInt (n : Int)
  | pyFloat (q : ℚ)
  | pyStr (s : String)
  | pyObj (strRepr : String)
deriving DecidableEq, Repr

/-- Python `str(value)`.  The DataFrame/Series cases are unreachable from the
dispatch below (they are routed to the format helpers first) and carry
placeholder renderings. -/
def pyValueStr : PyValue → String
  | PyValue.pyNone => "None"
  | PyValue.pyStr s => s
  | PyValue.pyInt n => toString n
  | PyValue.pyFloat q => fmtFixed2 false q
  | PyValue.pyObj r => r
  | PyValue.pyDF _ => "DataFrame"
  | PyValue.pySeries _ => "Series"

/-- gtools.py lines 270-284: `format_scalar_output` with the default
description "Result": floats as `$:,.2f`, ints as `:,`, anything else via
`str`. -/
def format_scalar_output (value : PyValue) (description : String) : String :=
  "📊 " ++ description ++ "\n" ++ sep70 ++ "\n\n" ++
    (match value with
     | PyValue.pyFloat q => "▸ $" ++ fmtFixed2 true q ++ "\n"
     | PyValue.pyInt n => "▸ " ++ commaGroupInt n ++ "\n"
     | v => "▸ " ++ pyValueStr v ++ "\n")

/-- Outcome of the `exec` call: raised with `str(e)`, or completed with the
optional value bound to `result`. -/
inductive ExecOutcome where
  | raised (msg : String)
  | completed (result : Option PyValue)
deriving DecidableEq, Repr

/-- gtools.py line 458: the no-result-variable error string. -/
def noResultError : String :=
  "❌ Error: The code ran, but no variable named \x27result\x27 was defined. Please assign the final answer to \x27result\x27."

/-- gtools.py line 447: the None-result warning string. -/
def noneWarning : String :=
  "⚠️ Warning: The calculation returned None. Please check your code logic."

/-- gtools.py lines 461-467: the exec-exception error string. -/
def pythonExecutionError (msg : String) : String :=
  "Python Execution Error: " ++ msg ++
    "\n\nCommon issues:\n- Check column names match the schema exactly (case-sensitive)\n- Ensure you\x27re using correct merge keys (customer_id, product_id, order_id)\n- Use suffixes when joining tables with duplicate column names\n- Verify dataframe names: customers_df, orders_df, products_df, revenue_df"

/-- gtools.py lines 423-467: `execute_pandas_code_business`.  Short-circuits
on a failed load; otherwise dispatches on the exec outcome and the kind of
the `result` value, exactly in the source's branch order. -/
def execute_pandas_code_business (fs : Firestore) (ex : ExecOutcome) : String :=
  match load_data fs with
  | Except.error e => e
  | Except.ok _ =>
    match ex with
    | ExecOutcome.raised msg => pythonExecutionError msg
    | ExecOutcome.completed none => noResultError
    | ExecOutcome.completed (some v) =>
      match v with
      | PyValue.pyNone => noneWarning
      | PyValue.pyDF df => format_dataframe_output df
      | PyValue.pySeries series => format_series_output series "Value"
      | PyValue.pyInt n => format_scalar_output (PyValue.pyInt n) "Result"
      | PyValue.pyFloat q => format_scalar_output (PyValue.pyFloat q) "Result"
      | PyValue.pyStr s => s
      | PyValue.pyObj r => r

/-! ## Customer orders tool (gtools.py lines 289-347) -/

/-- `orders.merge(products, on='product_id', how='left', suffixes=...)`
(gtools.py lines 308-310): one row per order-product match, a single row
with null product fields when no product matches. -/
def left_join_products (orders : List Order) (products : List Product) :
    List (Order × Option Product) :=
  (orders.map (fun o =>
    match products.filter (fun p => p.product_id == o.product_id) with
    | [] => [(o, (none : Option Product))]
    | ps => ps.map (fun p => (o, some p)))).flatten

/-- One order's block in the `get_customer_orders` output (gtools.py lines
326-345): product fields render as "nan" when the left join found no product
(or the price failed numeric coercion), dates render as `%Y-%m-%d`, and an
overdue non-final order gets the DELAYED annotation with the day count
(`datetime.now()` is abstracted to the current day `now`). -/
def order_block (now : Nat) (op : Order × Option Product) : String :=
  let o := op.1
  let pname := match op.2 with | some p => p.name | none => "nan"
  let pcat := match op.2 with | some p => p.category | none => "nan"
  let pprice :=
    match op.2 with
    | some p => (match p.price with | some q => fmtFixed2 false q | none => "nan")
    | none => "nan"
  "\n▸ Order ID: " ++ o.order_id ++ "\n  Product: " ++ pname ++ " (" ++ pcat ++
    ")\n  Price: $" ++ pprice ++ "\n  Status: " ++ o.status ++ "\n" ++
    (match o.order_date with
     | some d => "  Order Date: " ++ dateStr d ++ "\n"
     | none => "") ++
    (match o.est_delivery with
     | some d =>
       "  Est. Delivery: " ++ dateStr d ++ "\n" ++
         (if o.status ≠ "Delivered" ∧ o.status ≠ "Cancelled" ∧ d < now then
           "  ⚠️ DELAYED: " ++ toString (now - d) ++ " day(s) overdue\n"
         else "")
     | none => "  Est. Delivery: N/A\n") ++
    sep50 ++ "\n"

/-- gtools.py lines 289-347: `get_customer_orders`.  Short-circuits on a
failed load; unknown customer id yields the not-found error; otherwise the
customer's orders are left-joined with products and formatted. -/
def get_customer_orders (fs : Firestore) (now : Nat) (customer_id : String) : String :=
  match load_data fs with
  | Except.error e => e
  | Except.ok t =>
    let clean_id := normalizeId customer_id
    match t.customers_df.find? (fun c => c.customer_id == clean_id) with
    | none => "ERROR: Customer ID \x27" ++ clean_id ++ "\x27 not found in the system."
    | some cust =>
      let customer_orders :=
        left_join_products (t.orders_df.filter (fun o => o.customer_id == clean_id))
          t.products_df
      if customer_orders.isEmpty then
        "Hello " ++ cust.name ++ "! You currently have no orders in the system."
      else
        "👤 Customer: " ++ cust.name ++ " (ID: " ++ clean_id ++ ")\n" ++
          "📧 Email: " ++ cust.email ++ "\n" ++
          "📍 Region: " ++ cust.region ++ "\n" ++
          "📦 Total Orders: " ++ toString customer_orders.length ++ "\n\n" ++
          sep50 ++ "\n" ++
          String.join (customer_orders.map (order_block now))

/-- `get_customer_orders` as an interaction with the document store: the
Python function re-reads the store through `load_data` and performs no write
to it (gtools.py lines 289-347 contain only `.stream()` reads), so the call
returns its output together with the store state, unchanged. -/
def get_customer_orders_call (fs : Firestore) (now : Nat) (customer_id : String) :
    String × Firestore :=
  (get_customer_orders fs now customer_id, fs)

/-! ## Supply-chain predictions (gtools.py lines 566-638)

The burn-rate derivation upstream of the claim (demo velocities when fewer
than 10 orders exist, else the trailing-30-day order count divided by 30,
gtools.py lines 590-623) produces one `ProductVel` row per product; the
claim's lines 625-638 then derive days-until-stockout and the risk bucket
and sort ascending by days. -/

/-- A product row after the burn-rate computation: name, stock level, and
daily burn rate (both numeric after `fillna`, so plain rationals). -/
structure ProductVel where
  name : String
  stock_level : ℚ
  daily_burn_rate : ℚ
deriving DecidableEq, Repr

/-- A row of the returned forecast frame (gtools.py lines 637-638). -/
structure ForecastRow where
  name : String
  stock_level : ℚ
  daily_burn_rate : ℚ
  days_until_stockout : ℚ
  risk_level : String
deriving DecidableEq, Repr

/-- gtools.py lines 625-627: stock divided by burn rate when the rate is
positive, else the 999 sentinel. -/
def days_until_stockout (stock_level daily_burn_rate : ℚ) : ℚ :=
  if daily_burn_rate > 0 then stock_level / daily_burn_rate else 999

/-- gtools.py lines 629-633: the fixed risk thresholds. -/
def get_risk (days : ℚ) : String :=
  if days ≤ 7 then "CRITICAL"
  else if days ≤ 14 then "HIGH"
  else if days ≤ 30 then "MODERATE"
  else "LOW"

/-- One product's derived forecast row. -/
def forecast_row (p : ProductVel) : ForecastRow :=
  { name := p.name, stock_level := p.stock_level,
    daily_burn_rate := p.daily_burn_rate,
    days_until_stockout := days_until_stockout p.stock_level p.daily_burn_rate,
    risk_level := get_risk (days_until_stockout p.stock_level p.daily_burn_rate) }

/-- gtools.py lines 625-638: derive both columns per product and sort
ascending by days_until_stockout (`sort_values`, a stable sort). -/
def get_supply_chain_predictions (products : List ProductVel) : List ForecastRow :=
  (products.map forecast_row).mergeSort
    (fun a b => decide (a.days_until_stockout ≤ b.days_until_stockout))

/-! ## Sample data for concrete witnesses -/

/-- A sample customers row. -/
def sampleCustomer : Customer :=
  Customer.mk "CUST_001" "Ada" "ada@example.com" "West"

/-- A sample products row. -/
def sampleProduct : Product :=
  Product.mk "P1" "Widget" "Tools" (some (1999 / 100 : ℚ)) (some 5)

/-- A sample orders row. -/
def sampleOrder : Order :=
  Order.mk "O1" "CUST_001" "P1" "Shipped" (some 19700) (some 19710)

/-- A sample revenue row. -/
def sampleRevenue : Revenue :=
  Revenue.mk "R1" "O1" (some 250) (some 19705) "card"

/-- A store snapshot in which the orders collection is empty and the revenue
fetch raised. -/
def sampleFailStore : Firestore :=
  Firestore.mk (FetchResult.docs [sampleCustomer]) (FetchResult.docs [])
    (FetchResult.docs [sampleProduct]) (FetchResult.raised "network down")
    "SUCCESS (Local File)"

/-- A store snapshot in which all four fetches succeed. -/
def sampleOkStore : Firestore :=
  Firestore.mk (FetchResult.docs [sampleCustomer]) (FetchResult.docs [sampleOrder])
    (FetchResult.docs [sampleProduct]) (FetchResult.docs [sampleRevenue])
    "SUCCESS (Local File)"

/-- The table set loaded from `sampleOkStore` (ids are already normalized,
so cleaning leaves the rows unchanged). -/
def sampleTables : Tables :=
  Tables.mk [sampleCustomer] [sampleOrder] [sampleProduct] [sampleRevenue]

/-! ## Claim C1: retry wrapper behavior -/

/-- C1: with transient failures on attempts 1 and 2 and success on attempt 3,
exactly two backoff sleeps occur (base delay doubled each attempt plus jitter)
and the success value is returned; with transient failures on all three
attempts, the bounded-retries error string is returned (no exception); a
non-transient first failure returns immediately, with no sleeps, as the quota
error string when the message contains "quota" and the generic error string
otherwise. -/
theorem retry_wrapper_spec {α : Type} (call : Nat → CallResult α) (jitter : Nat → ℚ) :
    (∀ e0 e1 r, call 0 = CallResult.failure e0 → call 1 = CallResult.failure e1 →
      call 2 = CallResult.success r →
      isTransientError e0 = true → isTransientError e1 = true →
      invoke_model_with_retry call jitter =
        ([base_delay * 2 ^ 0 + jitter 0, base_delay * 2 ^ 1 + jitter 1], Except.ok r))
    ∧ (∀ e0 e1 e2, call 0 = CallResult.failure e0 → call 1 = CallResult.failure e1 →
      call 2 = CallResult.failure e2 →
      isTransientError e0 = true → isTransientError e1 = true → isTransientError e2 = true →
      invoke_model_with_retry call jitter =
        ([base_delay * 2 ^ 0 + jitter 0, base_delay * 2 ^ 1 + jitter 1],
         Except.error (overloadedError e2)))
    ∧ (∀ e, call 0 = CallResult.failure e → isTransientError e = false →
      invoke_model_with_retry call jitter =
        ([], Except.error (if isQuotaError e then quotaError e else generationError e))) := by
  refine ⟨?_, ?_, ?_⟩
  · intro e0 e1 r h0 h1 h2 ht0 ht1
    simp [invoke_model_with_retry, max_retries, generate_with_retry, h0, h1, h2, ht0, ht1]
  · intro e0 e1 e2 h0 h1 h2 ht0 ht1 ht2
    simp [invoke_model_with_retry, max_retries, generate_with_retry, h0, h1, h2, ht0, ht1, ht2]
  · intro e h0 hf
    cases hq : isQuotaError e with
    | false =>
      simp [invoke_model_with_retry, max_retries, generate_with_retry, h0, hf, hq]
    | true =>
      simp [invoke_model_with_retry, max_retries, generate_with_retry, h0, hf, hq]

/-- C1 witness: all three scenarios at concrete call sequences — two transient
failures then success (two sleeps of 2 and 4 seconds, zero jitter), three
transient failures (bounded-retries error), and an immediate quota failure
(no sleeps). -/
theorem retry_wrapper_spec_witness :
    invoke_model_with_retry
      (fun n => if n == 0 then CallResult.failure "429 rate limited"
        else if n == 1 then CallResult.failure "503 overloaded"
        else CallResult.success "final answer")
      (fun _ => (0 : ℚ)) = ([2, 4], Except.ok "final answer")
    ∧ invoke_model_with_retry
      (fun _ => (CallResult.failure "RESOURCE_EXHAUSTED busy" : CallResult String))
      (fun _ => (0 : ℚ)) =
        ([2, 4], Except.error (overloadedError "RESOURCE_EXHAUSTED busy"))
    ∧ invoke_model_with_retry
      (fun _ => (CallResult.failure "Insufficient quota remaining" : CallResult String))
      (fun _ => (0 : ℚ)) =
        ([], Except.error (quotaError "Insufficient quota remaining")) := by
  refine ⟨?_, ?_, ?_⟩
  · have h := (retry_wrapper_spec
      (fun n => if n == 0 then CallResult.failure "429 rate limited"
        else if n == 1 then CallResult.failure "503 overloaded"
        else CallResult.success "final answer")
      (fun _ => (0 : ℚ))).1 "429 rate limited" "503 overloaded" "final answer"
      rfl rfl rfl (by decide) (by decide)
    simpa [base_delay, show (2 : ℚ) * 2 = 4 from by norm_num] using h
  · have h := (retry_wrapper_spec
      (fun _ => (CallResult.failure "RESOURCE_EXHAUSTED busy" : CallResult String))
      (fun _ => (0 : ℚ))).2.1 "RESOURCE_EXHAUSTED busy" "RESOURCE_EXHAUSTED busy"
      "RESOURCE_EXHAUSTED busy" rfl rfl rfl (by decide) (by decide) (by decide)
    simpa [base_delay, show (2 : ℚ) * 2 = 4 from by norm_num] using h
  · have h := (retry_wrapper_spec
      (fun _ => (CallResult.failure "Insufficient quota remaining" : CallResult String))
      (fun _ => (0 : ℚ))).2.2 "Insufficient quota remaining" rfl (by decide)
    simpa [show isQuotaError "Insufficient quota remaining" = true from by decide] using h

/-! ## Claims C4, C5, C10: registration and authentication -/

/-- C4 (amended: the username must additionally be non-empty, since
`create_new_user` rejects empty usernames before any other check): for every
username not already in the store, non-empty password of length at least 6,
any role, and (for the customer role) a non-empty customer_id,
`create_new_user` succeeds and `authenticate_user` with the same credentials
then succeeds, the session carrying the stored customer_id (trimmed and
upper-cased) for the customer role and none otherwise. -/
theorem register_then_authenticate (creds : Creds)
    (u p role : String) (cid : Option String)
    (h0 : List.lookup u creds = none) (h1 : u ≠ "") (h2 : p ≠ "")
    (h3 : 6 ≤ p.length)
    (h4 : role = "customer" → ∃ c, cid = some c ∧ c ≠ "") :
    ∃ creds2, create_new_user creds u p role cid = RegResult.created creds2 ∧
      authenticate_user creds2 u p role =
        AuthResult.success (if role = "customer" then cid.map normalizeId else none) := by
  have hlen : ¬ p.length < 6 := not_lt.mpr h3
  by_cases hr : role = "customer"
  · obtain ⟨c, hc, hcne⟩ := h4 hr
    subst hc
    refine ⟨(u, UserData.mk p role (some (normalizeId c))) :: creds, ?_, ?_⟩
    · simp [create_new_user, h0, h1, h2, hlen, hr, hcne]
    · simp [authenticate_user, List.lookup, hr]
  · refine ⟨(u, UserData.mk p role none) :: creds, ?_, ?_⟩
    · simp [create_new_user, h0, h1, h2, hlen, hr]
    · simp [authenticate_user, List.lookup, hr]

/-- C4 witness: a concrete fresh registration followed by a successful login.
The stored and returned customer_id is the trimmed upper-cased "CUST_001". -/
theorem register_then_authenticate_witness :
    ∃ creds2,
      create_new_user [] "alice" "secret1" "customer" (some "cust_001") =
        RegResult.created creds2 ∧
      authenticate_user creds2 "alice" "secret1" "customer" =
        AuthResult.success ((some "cust_001").map normalizeId) := by
  have h := register_then_authenticate [] "alice" "secret1" "customer" (some "cust_001")
    rfl (by decide) (by decide) (by decide) (fun _ => ⟨"cust_001", rfl, by decide⟩)
  simpa using h

/-- C4 counterexample to the claim as stated: the empty username is not
present in the empty store and "secret1" is a non-empty password of length at
least 6, yet registration is rejected (empty-field check, gapp.py line 618),
so registration followed by authentication does not succeed. -/
theorem register_claim_counterexample :
    List.lookup "" ([] : Creds) = none ∧
    6 ≤ ("secret1" : String).length ∧
    create_new_user [] "" "secret1" "business" none = RegResult.emptyFields ∧
    (create_new_user [] "" "secret1" "business" none).isCreated = false :=
  ⟨rfl, by decide, rfl, rfl⟩

/-- C5: `authenticate_user` keeps the three failure modes distinct: unknown
username yields the not-found failure, known username with wrong password the
password failure, and matching password with a different stored role the role
failure; the three outcomes are pairwise different constructors, and the
function is total (no exception crosses the boundary: every input reaches one
of the four result constructors). -/
theorem authenticate_failure_trichotomy (creds : Creds) (u p expected : String) :
    (List.lookup u creds = none →
      authenticate_user creds u p expected = AuthResult.notFound)
    ∧ (∀ d, List.lookup u creds = some d → d.password ≠ p →
      authenticate_user creds u p expected = AuthResult.wrongPassword)
    ∧ (∀ d, List.lookup u creds = some d → d.password = p → d.role ≠ expected →
      authenticate_user creds u p expected = AuthResult.wrongRole)
    ∧ AuthResult.notFound ≠ AuthResult.wrongPassword
    ∧ AuthResult.notFound ≠ AuthResult.wrongRole
    ∧ AuthResult.wrongPassword ≠ AuthResult.wrongRole := by
  refine ⟨?_, ?_, ?_, by decide, by decide, by decide⟩
  · intro h
    simp [authenticate_user, h]
  · intro d hd hne
    simp [authenticate_user, hd, hne]
  · intro d hd hp hr
    simp [authenticate_user, hd, hp, hr]

/-- C5 witness: the three failure modes at concrete inputs against a
one-record store. -/
theorem authenticate_failure_trichotomy_witness :
    authenticate_user [("bob", UserData.mk "hunter22" "business" none)]
        "alice" "hunter22" "business" = AuthResult.notFound ∧
    authenticate_user [("bob", UserData.mk "hunter22" "business" none)]
        "bob" "wrong" "business" = AuthResult.wrongPassword ∧
    authenticate_user [("bob", UserData.mk "hunter22" "business" none)]
        "bob" "hunter22" "customer" = AuthResult.wrongRole :=
  ⟨(authenticate_failure_trichotomy _ _ _ _).1 rfl,
   (authenticate_failure_trichotomy _ _ _ _).2.1 _ rfl (by decide),
   (authenticate_failure_trichotomy _ _ _ _).2.2.1 _ rfl rfl (by decide)⟩

/-- C10: the password comparison precedes the role comparison in
`authenticate_user` (gapp.py lines 596-610): a stored password mismatch yields
the password failure even when the stored role also differs, and the role
failure can only arise when the password matched. -/
theorem password_check_precedes_role_check (creds : Creds) (u p expected : String) :
    (∀ d, List.lookup u creds = some d → d.password ≠ p →
      authenticate_user creds u p expected = AuthResult.wrongPassword)
    ∧ (authenticate_user creds u p expected = AuthResult.wrongRole →
      ∃ d, List.lookup u creds = some d ∧ d.password = p ∧ d.role ≠ expected) := by
  constructor
  · intro d hd hne
    simp [authenticate_user, hd, hne]
  · intro h
    cases hl : List.lookup u creds with
    | none => simp [authenticate_user, hl] at h
    | some d =>
      by_cases hp : d.password = p
      · by_cases hr : d.role = expected
        · simp [authenticate_user, hl, hp, hr] at h
        · exact ⟨d, rfl, hp, hr⟩
      · simp [authenticate_user, hl, hp] at h

/-- C10 witness: a user whose stored password and role both differ from the
attempt still gets the password failure, not the role failure. -/
theorem password_check_precedes_role_check_witness :
    authenticate_user [("carol", UserData.mk "pass123" "business" none)]
      "carol" "nope" "customer" = AuthResult.wrongPassword :=
  (password_check_precedes_role_check _ _ _ _).1 _ rfl (by decide)

/-! ## Claim C2: tool-call trace ordering -/

/-- C2 counterexample to the claim as stated: when the model requests a tool
name that is not registered in the function map, the trace records a Tool
Call step with no Tool Output step at all (gapp.py line 533 has no else
branch), so "for every tool call the model requests ... the trace contains a
Tool Output step for the same call" fails at this input. -/
theorem tool_trace_claim_counterexample :
    dispatch_tool_calls
        [("get_customer_orders", (fun _ => Except.ok "orders listing" : ToolFn))]
        (fun _ => Except.ok ())
        [Part.funcCall (FunctionCall.mk "mystery_tool" [])] 0 =
      [Step.toolCall "mystery_tool" []] ∧
    every_call_has_output [Step.toolCall "mystery_tool" []] = false :=
  ⟨rfl, rfl⟩

/-- C2 (amended: restricted to calls whose name is registered in the function
map, i.e. to the calls that are actually dispatched): in EVERY turn — with no
assumption on the other requested names, so turns mixing registered and
unregistered requests are covered — every Tool Call step of the returned
trace whose name is registered is immediately followed by a Tool Output step
for the same call (the output carrying the tool's result, or the
`Error executing <tool>: <message>` text when the tool or the follow-up model
call raises) before any step of a subsequent call; and, in general, a
requested call with an unregistered name contributes exactly its Tool Call
step to the trace, with no Tool Output step (the trace continues directly
with the remaining parts' steps). -/
theorem tool_trace_dispatched_call_output (function_map : List (String × ToolFn))
    (followUp : Nat → Except String Unit) :
    (∀ parts k, registered_calls_have_output function_map
      (dispatch_tool_calls function_map followUp parts k) = true)
    ∧ (∀ fc rest k, List.lookup fc.name function_map = none →
      dispatch_tool_calls function_map followUp (Part.funcCall fc :: rest) k =
        Step.toolCall fc.name fc.args ::
          dispatch_tool_calls function_map followUp rest k) := by
  constructor
  · intro parts
    induction parts with
    | nil => intro k; rfl
    | cons p rest ih =>
      intro k
      cases p with
      | textPart t => simpa [dispatch_tool_calls] using ih k
      | funcCall fc =>
        cases hl : List.lookup fc.name function_map with
        | none =>
          simp [dispatch_tool_calls, hl, registered_calls_have_output, ih k]
        | some f =>
          cases hr : f fc.args with
          | error msg =>
            simp [dispatch_tool_calls, hl, hr, registered_calls_have_output, ih k]
          | ok r =>
            cases hu : followUp k with
            | ok u =>
              simp [dispatch_tool_calls, hl, hr, hu, registered_calls_have_output,
                ih (k + 1)]
            | error msg =>
              simp [dispatch_tool_calls, hl, hr, hu, registered_calls_have_output,
                ih (k + 1)]
  · intro fc rest k h
    simp [dispatch_tool_calls, h]

/-- C2 witness: a concrete mixed turn — an unregistered request followed by a
registered one — still gives the dispatched call its output immediately after
its Tool Call step, while the unregistered request contributes exactly its
Tool Call step; the full trace is shown explicitly. -/
theorem tool_trace_dispatched_call_output_witness :
    registered_calls_have_output
      [("echo_tool", (fun _ => Except.ok "ran fine" : ToolFn))]
      (dispatch_tool_calls
        [("echo_tool", (fun _ => Except.ok "ran fine" : ToolFn))]
        (fun _ => Except.ok ())
        [Part.funcCall (FunctionCall.mk "bogus_tool" []),
         Part.funcCall (FunctionCall.mk "echo_tool" [("x", "1")])] 0) = true
    ∧ dispatch_tool_calls
        [("echo_tool", (fun _ => Except.ok "ran fine" : ToolFn))]
        (fun _ => Except.ok ())
        [Part.funcCall (FunctionCall.mk "bogus_tool" []),
         Part.funcCall (FunctionCall.mk "echo_tool" [("x", "1")])] 0 =
      Step.toolCall "bogus_tool" [] ::
        dispatch_tool_calls
          [("echo_tool", (fun _ => Except.ok "ran fine" : ToolFn))]
          (fun _ => Except.ok ())
          [Part.funcCall (FunctionCall.mk "echo_tool" [("x", "1")])] 0
    ∧ dispatch_tool_calls
        [("echo_tool", (fun _ => Except.ok "ran fine" : ToolFn))]
        (fun _ => Except.ok ())
        [Part.funcCall (FunctionCall.mk "bogus_tool" []),
         Part.funcCall (FunctionCall.mk "echo_tool" [("x", "1")])] 0 =
      [Step.toolCall "bogus_tool" [],
       Step.toolCall "echo_tool" [("x", "1")],
       Step.toolOutput "ran fine"] :=
  ⟨(tool_trace_dispatched_call_output
      [("echo_tool", (fun _ => Except.ok "ran fine" : ToolFn))]
      (fun _ => Except.ok ())).1
    [Part.funcCall (FunctionCall.mk "bogus_tool" []),
     Part.funcCall (FunctionCall.mk "echo_tool" [("x", "1")])] 0,
   (tool_trace_dispatched_call_output
      [("echo_tool", (fun _ => Except.ok "ran fine" : ToolFn))]
      (fun _ => Except.ok ())).2
    (FunctionCall.mk "bogus_tool" [])
    [Part.funcCall (FunctionCall.mk "echo_tool" [("x", "1")])] 0 rfl,
   rfl⟩

/-! ## Helper lemmas -/

/-- A list is a prefix of itself followed by anything. -/
lemma prefixMatch_append_self (p t : List Char) : prefixMatch p (p ++ t) = true := by
  induction p with
  | nil => rfl
  | cons c cs ih => simp [prefixMatch, ih]

/-- A prefix occurrence is a substring occurrence. -/
lemma hasSub_of_prefixMatch (p l : List Char) (h : prefixMatch p l = true) :
    hasSub p l = true := by
  cases l with
  | nil => simpa [hasSub] using h
  | cons c cs => simp [hasSub, h]

/-- A string contains its own prefix. -/
lemma strContains_prefix (pre tail : String) : strContains (pre ++ tail) pre = true := by
  have hdata : (pre ++ tail).data = pre.data ++ tail.data := rfl
  unfold strContains
  rw [hdata]
  exact hasSub_of_prefixMatch _ _ (prefixMatch_append_self _ _)

/-- A string starting with "ERROR" contains "ERROR". -/
lemma strContains_ERROR_prefix (rest : String) :
    strContains ("ERROR" ++ rest) "ERROR" = true :=
  strContains_prefix "ERROR" rest

/-- Every failed fetch (store unavailable, stream raised, or empty/missing
collection) yields a status string containing "ERROR". -/
lemma fetch_status_error {α : Type} (collection_name initStatus : String)
    (fr : FetchResult α) (h : fetch_ok fr = false) :
    strContains (get_firestore_collection collection_name initStatus fr).2 "ERROR" = true := by
  cases fr with
  | unavailable =>
    exact strContains_ERROR_prefix (": Firebase not initialized. Status: " ++ initStatus)
  | raised msg =>
    exact strContains_ERROR_prefix
      (": Failed to retrieve collection \x27" ++
        (collection_name ++ ("\x27. Details: " ++ msg)))
  | docs rows =>
    cases rows with
    | nil =>
      exact strContains_ERROR_prefix
        (": Collection \x27" ++ (collection_name ++ "\x27 is empty or does not exist."))
    | cons a as => simp [fetch_ok] at h

/-- The risk thresholds of `get_risk` partition the day counts. -/
lemma get_risk_spec (d : ℚ) :
    (get_risk d = "CRITICAL" ↔ d ≤ 7) ∧
    (get_risk d = "HIGH" ↔ 7 < d ∧ d ≤ 14) ∧
    (get_risk d = "MODERATE" ↔ 14 < d ∧ d ≤ 30) ∧
    (get_risk d = "LOW" ↔ 30 < d) := by
  unfold get_risk
  by_cases h1 : d ≤ 7
  · rw [if_pos h1]
    refine ⟨iff_of_true rfl h1, iff_of_false (by decide) ?_,
      iff_of_false (by decide) ?_, iff_of_false (by decide) ?_⟩
    · rintro ⟨hlt, -⟩
      linarith
    · rintro ⟨hlt, -⟩
      linarith
    · intro hlt
      linarith
  · rw [if_neg h1]
    push_neg at h1
    by_cases h2 : d ≤ 14
    · rw [if_pos h2]
      refine ⟨iff_of_false (by decide) ?_, iff_of_true rfl ⟨h1, h2⟩,
        iff_of_false (by decide) ?_, iff_of_false (by decide) ?_⟩
      · intro hle
        linarith
      · rintro ⟨hlt, -⟩
        linarith
      · intro hlt
        linarith
    · rw [if_neg h2]
      push_neg at h2
      by_cases h3 : d ≤ 30
      · rw [if_pos h3]
        refine ⟨iff_of_false (by decide) ?_, iff_of_false (by decide) ?_,
          iff_of_true rfl ⟨by linarith, h3⟩, iff_of_false (by decide) ?_⟩
        · intro hle
          linarith
        · rintro ⟨-, hle⟩
          linarith
        · intro hlt
          linarith
      · rw [if_neg h3]
        push_neg at h3
        refine ⟨iff_of_false (by decide) ?_, iff_of_false (by decide) ?_,
          iff_of_false (by decide) ?_, iff_of_true rfl h3⟩
        · intro hle
          linarith
        · rintro ⟨-, hle⟩
          linarith
        · rintro ⟨-, hle⟩
          linarith

/-! ## Claim C3: the delayed-orders filter -/

/-- C3: for every orders table and as-of day, the delayed set contains no
Delivered or Cancelled order, and contains exactly the orders with a non-null
est_delivery strictly before the as-of day and a status outside the two final
states. -/
theorem delayed_orders_characterization (orders : List Order) (today : Nat) :
    (∀ o ∈ critically_delayed_orders orders today,
      o.status ≠ "Delivered" ∧ o.status ≠ "Cancelled")
    ∧ (∀ o, o ∈ critically_delayed_orders orders today ↔
        (o ∈ orders ∧ o.status ≠ "Delivered" ∧ o.status ≠ "Cancelled" ∧
          ∃ d, o.est_delivery = some d ∧ d < today)) := by
  have key : ∀ o, o ∈ critically_delayed_orders orders today ↔
      (o ∈ orders ∧ o.status ≠ "Delivered" ∧ o.status ≠ "Cancelled" ∧
        ∃ d, o.est_delivery = some d ∧ d < today) := by
    intro o
    rw [critically_delayed_orders, List.mem_filter]
    unfold order_is_delayed
    cases h : o.est_delivery with
    | none => simp [h]
    | some d =>
      simp [h]
      tauto
  exact ⟨fun o ho => ⟨((key o).1 ho).2.1, ((key o).1 ho).2.2.1⟩, key⟩

/-- C3 witness: at day 20, a Shipped order due on day 10 is in the delayed
set; the Delivered order due on day 5 is not. -/
theorem delayed_orders_characterization_witness :
    Order.mk "O1" "CUST_001" "P1" "Shipped" (some 1) (some 10) ∈
      critically_delayed_orders
        [Order.mk "O1" "CUST_001" "P1" "Shipped" (some 1) (some 10),
         Order.mk "O2" "CUST_001" "P1" "Delivered" (some 1) (some 5)] 20
    ∧ Order.mk "O2" "CUST_001" "P1" "Delivered" (some 1) (some 5) ∉
      critically_delayed_orders
        [Order.mk "O1" "CUST_001" "P1" "Shipped" (some 1) (some 10),
         Order.mk "O2" "CUST_001" "P1" "Delivered" (some 1) (some 5)] 20 := by
  have h := delayed_orders_characterization
    [Order.mk "O1" "CUST_001" "P1" "Shipped" (some 1) (some 10),
     Order.mk "O2" "CUST_001" "P1" "Delivered" (some 1) (some 5)] 20
  constructor
  · exact (h.2 _).2 ⟨by simp, by decide, by decide, 10, rfl, by decide⟩
  · intro hmem
    exact (h.1 _ hmem).1 rfl

/-! ## Claim C6: all-or-nothing load and short-circuiting tools -/

/-- C6: if any of the four collection fetches fails (store unavailable, fetch
raised, or empty/missing collection), `load_data` returns the single
aggregated error string, which names every failing table, and returns no
table data at all; every dependent tool invoked against that store state
short-circuits by returning that same string (`check_customer_order_status`
catches it and returns its error dict instead, gtools.py lines 354-356). -/
theorem load_failure_all_or_nothing (fs : Firestore) (ex : ExecOutcome)
    (h : fetch_ok fs.customers = false ∨ fetch_ok fs.orders = false ∨
      fetch_ok fs.products = false ∨ fetch_ok fs.revenue = false) :
    ∃ e, load_data fs = Except.error e ∧
      (∀ t, load_data fs ≠ Except.ok t) ∧
      e = "Data Load Error: " ++ String.intercalate "; " (load_errors fs) ∧
      (fetch_ok fs.customers = false →
        ("Customers: " ++ customers_status fs) ∈ load_errors fs) ∧
      (fetch_ok fs.orders = false →
        ("Orders: " ++ orders_status fs) ∈ load_errors fs) ∧
      (fetch_ok fs.products = false →
        ("Products: " ++ products_status fs) ∈ load_errors fs) ∧
      (fetch_ok fs.revenue = false →
        ("Revenue: " ++ revenue_status fs) ∈ load_errors fs) ∧
      execute_pandas_code_business fs ex = e ∧
      (∀ now cid, get_customer_orders fs now cid = e) ∧
      (∀ today, check_for_critical_delays fs today = e) ∧
      (∀ today cid, check_customer_order_status fs today cid =
        StatusResult.mk "error" "Unable to load data" none) := by
  have hne : load_errors fs ≠ [] := by
    intro hnil
    rw [load_errors, table_fetch_errors] at hnil
    rcases List.append_eq_nil.mp hnil with ⟨h123, h4⟩
    rcases List.append_eq_nil.mp h123 with ⟨h12, h3⟩
    rcases List.append_eq_nil.mp h12 with ⟨h1, h2⟩
    rcases h with hc | ho | hp | hr
    · have hc' : strContains (customers_status fs) "ERROR" = true :=
        fetch_status_error "customers" fs.initStatus fs.customers hc
      simp [hc'] at h1
    · have ho' : strContains (orders_status fs) "ERROR" = true :=
        fetch_status_error "orders" fs.initStatus fs.orders ho
      simp [ho'] at h2
    · have hp' : strContains (products_status fs) "ERROR" = true :=
        fetch_status_error "products" fs.initStatus fs.products hp
      simp [hp'] at h3
    · have hr' : strContains (revenue_status fs) "ERROR" = true :=
        fetch_status_error "revenue" fs.initStatus fs.revenue hr
      simp [hr'] at h4
  have hload : load_data fs = Except.error (aggregated_load_error fs) := by
    unfold load_data
    rw [if_neg hne]
  refine ⟨aggregated_load_error fs, hload, ?_, rfl, ?_, ?_, ?_, ?_, ?_, ?_, ?_, ?_⟩
  · intro t hcontra
    rw [hload] at hcontra
    exact Except.noConfusion hcontra
  · intro hc
    have hc' : strContains (customers_status fs) "ERROR" = true :=
      fetch_status_error "customers" fs.initStatus fs.customers hc
    rw [load_errors, table_fetch_errors]
    exact List.mem_append_left _
      (List.mem_append_left _ (List.mem_append_left _ (by simp [hc'])))
  · intro ho
    have ho' : strContains (orders_status fs) "ERROR" = true :=
      fetch_status_error "orders" fs.initStatus fs.orders ho
    rw [load_errors, table_fetch_errors]
    exact List.mem_append_left _
      (List.mem_append_left _ (List.mem_append_right _ (by simp [ho'])))
  · intro hp
    have hp' : strContains (products_status fs) "ERROR" = true :=
      fetch_status_error "products" fs.initStatus fs.products hp
    rw [load_errors, table_fetch_errors]
    exact List.mem_append_left _ (List.mem_append_right _ (by simp [hp']))
  · intro hr
    have hr' : strContains (revenue_status fs) "ERROR" = true :=
      fetch_status_error "revenue" fs.initStatus fs.revenue hr
    rw [load_errors, table_fetch_errors]
    exact List.mem_append_right _ (by simp [hr'])
  · simp [execute_pandas_code_business, hload]
  · intro now cid
    simp [get_customer_orders, hload]
  · intro today
    simp [check_for_critical_delays, hload]
  · intro today cid
    simp [check_customer_order_status, hload]

/-- C6 witness: with an empty orders collection and a raised revenue fetch,
the aggregated error names both failing tables and every dependent tool
returns it. -/
theorem load_failure_all_or_nothing_witness :
    ∃ e, load_data sampleFailStore = Except.error e ∧
      (∀ t, load_data sampleFailStore ≠ Except.ok t) ∧
      e = "Data Load Error: " ++
        String.intercalate "; " (load_errors sampleFailStore) ∧
      (fetch_ok sampleFailStore.customers = false →
        ("Customers: " ++ customers_status sampleFailStore) ∈ load_errors sampleFailStore) ∧
      (fetch_ok sampleFailStore.orders = false →
        ("Orders: " ++ orders_status sampleFailStore) ∈ load_errors sampleFailStore) ∧
      (fetch_ok sampleFailStore.products = false →
        ("Products: " ++ products_status sampleFailStore) ∈ load_errors sampleFailStore) ∧
      (fetch_ok sampleFailStore.revenue = false →
        ("Revenue: " ++ revenue_status sampleFailStore) ∈ load_errors sampleFailStore) ∧
      execute_pandas_code_business sampleFailStore (ExecOutcome.completed none) = e ∧
      (∀ now cid, get_customer_orders sampleFailStore now cid = e) ∧
      (∀ today, check_for_critical_delays sampleFailStore today = e) ∧
      (∀ today cid, check_customer_order_status sampleFailStore today cid =
        StatusResult.mk "error" "Unable to load data" none) :=
  load_failure_all_or_nothing sampleFailStore (ExecOutcome.completed none)
    (Or.inr (Or.inl rfl))

/-! ## Claim C7: business-tool result dispatch -/

/-- C7 (amended: a `result` bound to None yields the fixed None warning
string, not `str(None)`): when the data loads, an exec that completes without
binding `result` returns the explicit no-result-variable error string; a
bound `result` is dispatched by kind — DataFrame and Series through the
row-by-row format helpers, numeric scalars through the formatted-number
helper, and any other non-None value through string coercion; a raised exec
returns the Python-execution error string. -/
theorem business_tool_result_dispatch (fs : Firestore) (t : Tables)
    (hload : load_data fs = Except.ok t) :
    execute_pandas_code_business fs (ExecOutcome.completed none) = noResultError
    ∧ execute_pandas_code_business fs (ExecOutcome.completed (some PyValue.pyNone)) =
        noneWarning
    ∧ (∀ df, execute_pandas_code_business fs
        (ExecOutcome.completed (some (PyValue.pyDF df))) = format_dataframe_output df)
    ∧ (∀ series, execute_pandas_code_business fs
        (ExecOutcome.completed (some (PyValue.pySeries series))) =
        format_series_output series "Value")
    ∧ (∀ n, execute_pandas_code_business fs
        (ExecOutcome.completed (some (PyValue.pyInt n))) =
        format_scalar_output (PyValue.pyInt n) "Result")
    ∧ (∀ q, execute_pandas_code_business fs
        (ExecOutcome.completed (some (PyValue.pyFloat q))) =
        format_scalar_output (PyValue.pyFloat q) "Result")
    ∧ (∀ s, execute_pandas_code_business fs
        (ExecOutcome.completed (some (PyValue.pyStr s))) = s)
    ∧ (∀ r, execute_pandas_code_business fs
        (ExecOutcome.completed (some (PyValue.pyObj r))) = r)
    ∧ (∀ msg, execute_pandas_code_business fs (ExecOutcome.raised msg) =
        pythonExecutionError msg) := by
  refine ⟨?_, ?_, ?_, ?_, ?_, ?_, ?_, ?_, ?_⟩ <;>
    simp [execute_pandas_code_business, hload]

/-- C7 witness: against a fully loaded store, code that never binds `result`
yields the no-result error string, and a string result is returned by string
coercion. -/
theorem business_tool_result_dispatch_witness :
    execute_pandas_code_business sampleOkStore (ExecOutcome.completed none) =
      noResultError
    ∧ execute_pandas_code_business sampleOkStore
        (ExecOutcome.completed (some (PyValue.pyStr "42 units"))) = "42 units" :=
  ⟨(business_tool_result_dispatch sampleOkStore sampleTables rfl).1,
   (business_tool_result_dispatch sampleOkStore sampleTables rfl).2.2.2.2.2.2.1 _⟩

/-- C7 counterexample to the claim as stated: a `result` bound to None is an
assigned result, yet the tool returns the fixed None warning (gtools.py line
447), which differs from the string coercion `str(None) = "None"` that the
claim's "otherwise string coercion" clause prescribes. -/
theorem business_tool_none_counterexample :
    execute_pandas_code_business sampleOkStore
      (ExecOutcome.completed (some PyValue.pyNone)) = noneWarning
    ∧ pyValueStr PyValue.pyNone = "None"
    ∧ noneWarning ≠ "None" :=
  ⟨rfl, rfl, by decide⟩

/-! ## Claim C8: supply-chain forecast rows -/

/-- C8: every row of the forecast has days_until_stockout equal to
stock_level divided by daily_burn_rate when the burn rate is positive and to
the 999 sentinel when it is zero, and risk_level is exactly the fixed bucket
of days_until_stockout. -/
theorem supply_chain_risk_bucketing (products : List ProductVel) :
    ∀ row ∈ get_supply_chain_predictions products,
      (row.daily_burn_rate > 0 →
        row.days_until_stockout = row.stock_level / row.daily_burn_rate)
      ∧ (row.daily_burn_rate = 0 → row.days_until_stockout = 999)
      ∧ (row.risk_level = "CRITICAL" ↔ row.days_until_stockout ≤ 7)
      ∧ (row.risk_level = "HIGH" ↔
          7 < row.days_until_stockout ∧ row.days_until_stockout ≤ 14)
      ∧ (row.risk_level = "MODERATE" ↔
          14 < row.days_until_stockout ∧ row.days_until_stockout ≤ 30)
      ∧ (row.risk_level = "LOW" ↔ 30 < row.days_until_stockout) := by
  intro row hrow
  rw [get_supply_chain_predictions, List.mem_mergeSort, List.mem_map] at hrow
  obtain ⟨p, hp, rfl⟩ := hrow
  simp only [forecast_row]
  refine ⟨?_, ?_, (get_risk_spec _).1, (get_risk_spec _).2.1,
    (get_risk_spec _).2.2.1, (get_risk_spec _).2.2.2⟩
  · intro hpos
    simp [days_until_stockout, hpos]
  · intro hzero
    simp [days_until_stockout, hzero]

/-- C8 witness: a zero-burn-rate product gets the 999 sentinel and the LOW
bucket; membership of its forecast row in the prediction output is concrete. -/
theorem supply_chain_risk_bucketing_witness :
    ForecastRow.mk "Gadget" 5 0 999 "LOW" ∈
      get_supply_chain_predictions
        [ProductVel.mk "Widget" 10 2, ProductVel.mk "Gadget" 5 0]
    ∧ (ForecastRow.mk "Gadget" 5 0 999 "LOW").days_until_stockout = 999
    ∧ ((ForecastRow.mk "Gadget" 5 0 999 "LOW").risk_level = "LOW" ↔
        30 < (ForecastRow.mk "Gadget" 5 0 999 "LOW").days_until_stockout) := by
  have hmem : ForecastRow.mk "Gadget" 5 0 999 "LOW" ∈
      get_supply_chain_predictions
        [ProductVel.mk "Widget" 10 2, ProductVel.mk "Gadget" 5 0] := by
    rw [get_supply_chain_predictions]
    exact List.mem_mergeSort.mpr (by decide)
  have h := supply_chain_risk_bucketing _ _ hmem
  exact ⟨hmem, h.2.1 rfl, h.2.2.2.2.2⟩

/-! ## Claim C9: `get_customer_orders` is idempotent and side-effect-free -/

/-- C9: `get_customer_orders` only reads the document store (gtools.py lines
289-347 reach the store exclusively through `load_data`'s `.stream()` reads
and issue no writes), so in the state-passing embedding a call leaves the
store unchanged, and two consecutive calls with the same customer_id against
unchanged backing data return identical results. -/
theorem customer_orders_idempotent (fs : Firestore) (now : Nat) (cid : String) :
    (get_customer_orders_call fs now cid).1 =
      (get_customer_orders_call (get_customer_orders_call fs now cid).2 now cid).1
    ∧ (get_customer_orders_call (get_customer_orders_call fs now cid).2 now cid).2 = fs :=
  ⟨rfl, rfl⟩

end ABI
